import Mathlib

/-!
Shallow embedding of the EdgeX app-record-replay service, covering the HTTP
controller (`internal/controller/http.go`, given as `src/unnamed/part_000`)
and the data manager (`src/internal/data/manager.go`): its factory and its
start methods, which are staged as unconditional panic stubs.

The controller handlers are translated branch by branch.  External library
effects (JSON decoding of the request body, construction of gzip/zlib
readers, the data manager's methods) are passed in as explicit parameters:
the handlers are pure functions from those results to an HTTP response plus
a trace of which stages were reached and with which arguments the data
manager was invoked.  Compressed payloads are represented symbolically by
constructors (`Body.zlibJson`, `Body.gzipJson`), since the claims are about
header/token selection and control flow, not about the byte streams.
-/

namespace ARR

/-! ## Data model (from `pkg/dtos`, reduced to the fields the controller reads) -/

/-- One captured telemetry event.  Only identity matters for the controller. -/
structure Event where
  deviceName : String
  deriving DecidableEq, Repr

/-- A device definition (unique by name). -/
structure Device where
  name : String
  deriving DecidableEq, Repr

/-- A device-profile definition (unique by name). -/
structure DeviceProfile where
  name : String
  deriving DecidableEq, Repr

/-- The unit of export/import (`dtos.RecordedData`). -/
structure RecordedData where
  recordedEvents : List Event
  profiles : List DeviceProfile
  devices : List Device
  deriving DecidableEq, Repr

/-- Body of `POST /record` (`dtos.RecordRequest`): Duration is a Go
`time.Duration` (int64 nanoseconds), EventLimit an int; both modelled as ℤ. -/
structure RecordRequest where
  duration : Int
  eventLimit : Int
  deriving DecidableEq, Repr

/-- Body of `POST /replay` (`dtos.ReplayRequest`): ReplayRate is a float,
modelled as ℚ (the controller only tests its sign, and JSON decoding cannot
produce NaN); RepeatCount is an int, modelled as ℤ. -/
structure ReplayRequest where
  replayRate : Rat
  repeatCount : Int
  deriving DecidableEq, Repr

namespace controller

/-! ## String constants from the top of the controller file -/

def failedRequestJSON : String := "Unable to process request JSON"

def failedRecordRequestValidate : String :=
  "Record request failed validation: Duration and/or EventLimit must be set"

def failedRecordDurationValidate : String :=
  "Record request failed validation: Duration must be > 0 when set"

def failedRecordEventLimitValidate : String :=
  "Record request failed validation: Event Limit must be > 0 when set"

def failedRecording : String := "Recording failed"

def failedReplayRateValidate : String :=
  "Replay request failed validation: Replay Rate must be greater than 0"

def failedRepeatCountValidate : String :=
  "Replay request failed validation: Repeat Count must be equal or greater than 0"

def failedReplay : String := "Replay failed"

def failedToUncompressData : String := "failed to uncompress data"

def failedImportingData : String := "Import data failed"

def noDataFound : String := "no recorded data found"

def noCompression : String := ""

def zlibCompression : String := "ZLIB"

def gzipCompression : String := "GZIP"

def contenEncodingGzip : String := "gzip"

/-- Standard value used for zlib is deflate. -/
def contentEncodingZlib : String := "deflate"

/-- Header name `common.ContentType` from go-mod-core-contracts. -/
def contentTypeHeader : String := "Content-Type"

/-- Value `common.ContentTypeJSON` from go-mod-core-contracts. -/
def contentTypeJSON : String := "application/json"

/-! ## HTTP responses -/

/-- Response payload, with compressed JSON kept symbolic. -/
inductive Body where
  | empty : Body
  | text (msg : String) : Body
  | plainJson (d : RecordedData) : Body
  | zlibJson (d : RecordedData) : Body
  | gzipJson (d : RecordedData) : Body
  deriving DecidableEq, Repr

/-- An HTTP response: status code, headers set (in order), body written. -/
structure Response where
  status : Nat
  headers : List (String × String)
  body : Body
  deriving DecidableEq, Repr

/-! ## POST /record — httpController.startRecording

The JSON decode of the request body and the data manager's `StartRecording`
are parameters.  The second component of the result is the argument passed
to `StartRecording`, or `none` when the handler returned without calling it. -/

def startRecording (decoded : Except String RecordRequest)
    (startRec : RecordRequest → Except String Unit) :
    Response × Option RecordRequest :=
  match decoded with
  | .error e => (⟨400, [], .text (failedRequestJSON ++ ": " ++ e)⟩, none)
  | .ok req =>
    if req.duration = 0 ∧ req.eventLimit = 0 then
      (⟨400, [], .text failedRecordRequestValidate⟩, none)
    else if req.duration < 0 then
      (⟨400, [], .text failedRecordDurationValidate⟩, none)
    else if req.eventLimit < 0 then
      (⟨400, [], .text failedRecordEventLimitValidate⟩, none)
    else
      match startRec req with
      | .error e => (⟨500, [], .text (failedRecording ++ ": " ++ e)⟩, some req)
      | .ok _ => (⟨202, [], .empty⟩, some req)

/-! ## POST /replay — httpController.startReplay -/

def startReplay (decoded : Except String ReplayRequest)
    (startRep : ReplayRequest → Except String Unit) :
    Response × Option ReplayRequest :=
  match decoded with
  | .error e => (⟨400, [], .text (failedRequestJSON ++ ": " ++ e)⟩, none)
  | .ok req =>
    if req.replayRate ≤ 0 then
      (⟨400, [], .text failedReplayRateValidate⟩, none)
    else if req.repeatCount < 0 then
      (⟨400, [], .text failedRepeatCountValidate⟩, none)
    else
      match startRep req with
      | .error e => (⟨500, [], .text (failedReplay ++ ": " ++ e)⟩, some req)
      | .ok _ => (⟨202, [], .empty⟩, some req)

/-! ## GET /data — httpController.exportRecordedData

The data manager's `ExportRecordedData` result and the `compression` query
value (`request.URL.Query().Get("compression")`, the empty string when the
parameter is absent) are parameters.  `json.Marshal` / `json.NewEncoder` of
a `RecordedData` cannot fail, so the encode branches are total. -/

def exportRecordedData (mgr : Except String RecordedData)
    (compression : String) : Response :=
  match mgr with
  | .error e => ⟨500, [], .text ("failed to export recorded data: " ++ e)⟩
  | .ok recordedData =>
    if compression = noCompression then
      ⟨200, [(contentTypeHeader, contentTypeJSON)], .plainJson recordedData⟩
    else if compression = zlibCompression then
      ⟨200, [("Content-Encoding", "ZLIB"), (contentTypeHeader, contentTypeJSON)],
        .zlibJson recordedData⟩
    else if compression = gzipCompression then
      ⟨200, [("Content-Encoding", "GZIP"), (contentTypeHeader, contentTypeJSON)],
        .gzipJson recordedData⟩
    else
      ⟨500, [], .text ("compression format not available: " ++ compression)⟩

/-! ## POST /data — httpController.importRecordedData -/

/-- Go `strconv.ParseBool`, used on the `overwrite` query parameter. -/
def parseBool (s : String) : Except String Bool :=
  if s = "1" ∨ s = "t" ∨ s = "T" ∨ s = "true" ∨ s = "TRUE" ∨ s = "True" then
    .ok true
  else if s = "0" ∨ s = "f" ∨ s = "F" ∨ s = "false" ∨ s = "FALSE" ∨ s = "False" then
    .ok false
  else
    .error ("strconv.ParseBool: parsing \"" ++ s ++ "\": invalid syntax")

/-- Overwrite flag of an import: `request.URL.Query().Get("overwrite")` yields
the empty string when the parameter is absent; the handler defaults to `true`
on length 0 and otherwise parses the value with `strconv.ParseBool`. -/
def getOverwrite (queryParam : String) : Except String Bool :=
  if queryParam.length = 0 then .ok true else parseBool queryParam

/-- Decompression algorithm selected by the import handler. -/
inductive Alg where
  | plain : Alg
  | gzip : Alg
  | zlib : Alg
  deriving DecidableEq, Repr

/-- Selector of the import handler's `switch compression` statement: which
decompression algorithm the `Content-Encoding` request header names, `none`
when the token is unsupported. -/
def selectDecompression (contentEncoding : String) : Option Alg :=
  if contentEncoding = noCompression then some .plain
  else if contentEncoding = contenEncodingGzip then some .gzip
  else if contentEncoding = contentEncodingZlib then some .zlib
  else none

/-- Result of the import handler: the response, plus a trace of which stages
of the handler ran.  `reachedOverwrite` is true once the overwrite query
parameter was read, `algorithm` is the decompression algorithm the switch
selected, `reachedDecode` is true once the body was JSON-decoded, and
`managerArgs` holds the arguments of the `ImportRecordedData` call (`none`
when the handler returned without calling the data manager, so the Recorded
Data Store is untouched). -/
structure ImportResult where
  response : Response
  reachedOverwrite : Bool
  algorithm : Option Alg
  reachedDecode : Bool
  managerArgs : Option (RecordedData × Bool)
  deriving DecidableEq, Repr

/-- Tail of the import handler, from the `json.NewDecoder(reader).Decode`
call on: the payload checks in source order (events, then devices, then
profiles) and the `ImportRecordedData` call. -/
def importAfterReader (alg : Alg) (overwrite : Bool)
    (decoded : Except String RecordedData)
    (importData : RecordedData → Bool → Except String Unit) : ImportResult :=
  match decoded with
  | .error e =>
    ⟨⟨400, [], .text (failedRequestJSON ++ ": " ++ e)⟩, true, some alg, true, none⟩
  | .ok d =>
    if d.recordedEvents.length < 1 then
      ⟨⟨400, [], .text (noDataFound ++ ": no recorded events")⟩, true, some alg, true, none⟩
    else if d.devices.length < 1 then
      ⟨⟨400, [], .text (noDataFound ++ ": no devices")⟩, true, some alg, true, none⟩
    else if d.profiles.length < 1 then
      ⟨⟨400, [], .text (noDataFound ++ ": no profiles")⟩, true, some alg, true, none⟩
    else
      match importData d overwrite with
      | .error e =>
        ⟨⟨500, [], .text (failedImportingData ++ ": " ++ e)⟩, true, some alg, true,
          some (d, overwrite)⟩
      | .ok _ =>
        ⟨⟨202, [], .empty⟩, true, some alg, true, some (d, overwrite)⟩

/-- The import handler.  Parameters: the `Content-Type` request header, the
`overwrite` query value, the `Content-Encoding` request header, whether
`gzip.NewReader` / `zlib.NewReader` on the body succeed (their header check
reads the stream), the JSON decode result of the (decompressed) body, and
the data manager's `ImportRecordedData`. -/
def importRecordedData (contentType overwriteParam contentEncoding : String)
    (gzipReaderOk zlibReaderOk : Bool)
    (decoded : Except String RecordedData)
    (importData : RecordedData → Bool → Except String Unit) : ImportResult :=
  if contentType ≠ contentTypeJSON then
    ⟨⟨400, [], .text ("Invalid content type '" ++ contentType ++
        "'. Must be application/json")⟩, false, none, false, none⟩
  else
    match getOverwrite overwriteParam with
    | .error e =>
      ⟨⟨400, [], .text ("failed to parse overwrite parameter: " ++ e)⟩,
        true, none, false, none⟩
    | .ok overwrite =>
      if contentEncoding = noCompression then
        importAfterReader .plain overwrite decoded importData
      else if contentEncoding = contenEncodingGzip then
        if gzipReaderOk then
          importAfterReader .gzip overwrite decoded importData
        else
          ⟨⟨400, [], .text (failedToUncompressData ++ ": gzip: invalid header")⟩,
            true, some .gzip, false, none⟩
      else if contentEncoding = contentEncodingZlib then
        if zlibReaderOk then
          importAfterReader .zlib overwrite decoded importData
        else
          ⟨⟨400, [], .text (failedToUncompressData ++ ": zlib: invalid header")⟩,
            true, some .zlib, false, none⟩
      else
        ⟨⟨400, [], .text ("compression format " ++ contentEncoding ++ " not supported")⟩,
          true, none, false, none⟩

end controller

namespace data

/-! ## Data manager factory (`internal/data/manager.go`) -/

/-- A bounded Go channel: `make(chan α, capacity)`.  The buffer holds the
values sent but not yet received. -/
structure Chan (α : Type) where
  capacity : Nat
  buffer : List α
  deriving DecidableEq, Repr

/-- One attempted (non-blocking view of a) channel send: when the buffer has
room the value is enqueued at the back; when the buffer is full the result is
`none`, meaning the sender blocks until a receiver drains the channel — the
value is never dropped. -/
def Chan.send {α : Type} (c : Chan α) (x : α) : Option (Chan α) :=
  if c.buffer.length < c.capacity then
    some { c with buffer := c.buffer ++ [x] }
  else
    none

/-- Stand-in for the `context.Context` the factory stores. -/
structure Context where
  deriving DecidableEq, Repr

/-- Stand-in for the `interfaces.ApplicationService` the factory stores. -/
structure ApplicationService where
  deriving DecidableEq, Repr

/-- The data manager's state as built by the factory.  `dataChan` embeds
`make(chan []coreDtos.Event, 1)`. -/
structure dataManager where
  dataChan : Chan (List Event)
  ctx : Context
  appSvc : ApplicationService
  deriving DecidableEq, Repr

/-- NewManager is the factory function which instantiates a Data Manager. -/
def NewManager (ctx : Context) (service : ApplicationService) : dataManager :=
  { dataChan := { capacity := 1, buffer := [] }
    ctx := ctx
    appSvc := service }

/-! ## Session coordinator and the start methods

`dataManager.StartRecording` (manager.go lines 46-49) and
`dataManager.StartReplay` (lines 65-68) are present in the source, but their
bodies are unconditional Go panic stubs (`panic("implement me")` behind a
TODO), even though their own doc comments promise an error return when a
record or replay session is currently running.  They are embedded below
exactly as staged: calls that never return.  The Session Coordinator
component the spec documents them to use has no implementation anywhere in
src, so it is modelled from the spec, separately, as the intended
behaviour. -/

/-- Process-wide session coordinator state. -/
inductive SessionState where
  | Idle : SessionState
  | Recording : SessionState
  | Replaying : SessionState
  deriving DecidableEq, Repr

/-- Error kind for a start request while another session is active. -/
inductive SessionError where
  | SessionBusy : SessionError
  deriving DecidableEq, Repr

/-- Modelled from the spec: `tryAcquire(role)` of the Session Coordinator, a
component with no implementation anywhere under src.  It atomically
transitions `Idle → role` and fails with `SessionBusy` — rejecting, never
queuing, the request — when the current state is not `Idle`, in which case
the state is unchanged.  This is the intended behaviour the present
`StartRecording`/`StartReplay` stubs do not implement. -/
def tryAcquire (role : SessionState) (s : SessionState) :
    Except SessionError SessionState :=
  if s = SessionState.Idle then .ok role else .error .SessionBusy

/-- Outcome of calling a Go method that may panic instead of returning:
either a returned value or a crash with the panic message. -/
inductive GoOutcome (α : Type) where
  | returns (val : α) : GoOutcome α
  | panicked (msg : String) : GoOutcome α
  deriving DecidableEq, Repr

/-- StartRecording exactly as staged in `src/internal/data/manager.go`
lines 46-49: the body is the unconditional stub `panic("implement me")`, so
the call never returns a value — neither a `SessionBusy` error nor a nil
success — for any receiver and any request. -/
def StartRecording (_m : dataManager) (_request : RecordRequest) :
    GoOutcome (Option SessionError) :=
  .panicked "implement me"

/-- StartReplay exactly as staged in `src/internal/data/manager.go`
lines 65-68: the body is the unconditional stub `panic("implement me")`, so
the call never returns a value for any receiver and any request. -/
def StartReplay (_m : dataManager) (_request : ReplayRequest) :
    GoOutcome (Option SessionError) :=
  .panicked "implement me"

end data

/-! ## Claims -/

/-- C1: the claim says `StartRecording` / `StartReplay` return a
`SessionBusy` error when another recording or replay session is active and
do not return `SessionBusy` from `Idle`.  The code as staged cannot exhibit
this behaviour: both method bodies are unconditional panic stubs, so every
call — whatever the receiver and the request, in particular a well-formed
start request — crashes with the panic message "implement me" and never
returns any value, `SessionBusy` or otherwise (the `GoOutcome` constructors
are disjoint), contradicting the methods' own doc comments, which promise an
error return while a record or replay session is currently running. -/
theorem C1_start_stubs_always_panic (m : data.dataManager)
    (recReq : RecordRequest) (repReq : ReplayRequest) :
    data.StartRecording m recReq = .panicked "implement me" ∧
    data.StartReplay m repReq = .panicked "implement me" :=
  ⟨rfl, rfl⟩

/-- C7: `NewManager` always builds a data manager whose event hand-off
channel has buffer capacity exactly 1; the first batch sent is buffered (not
dropped), and a second batch sent while one is still pending is not accepted
— the send blocks (returns `none`) rather than dropping either batch. -/
theorem C7_newmanager_handoff_capacity_one (ctx : data.Context)
    (svc : data.ApplicationService) (b1 b2 : List Event) :
    (data.NewManager ctx svc).dataChan.capacity = 1 ∧
    (data.NewManager ctx svc).dataChan.send b1 =
      some { capacity := 1, buffer := [b1] } ∧
    data.Chan.send { capacity := 1, buffer := [b1] } b2 = none := by
  refine ⟨rfl, ?_, ?_⟩ <;> simp [data.NewManager, data.Chan.send]

/-- C9: an import request whose Content-Type is not exactly application/json
is answered 400 before the overwrite parameter is parsed, before any
decompression algorithm is selected, before the body is decoded, and without
invoking the data manager — whatever the rest of the request holds. -/
theorem C9_import_wrong_content_type_rejected_first (ct op ce : String)
    (g z : Bool) (dec : Except String RecordedData)
    (mgr : RecordedData → Bool → Except String Unit)
    (h : ct ≠ controller.contentTypeJSON) :
    controller.importRecordedData ct op ce g z dec mgr =
      ⟨⟨400, [], .text ("Invalid content type '" ++ ct ++
          "'. Must be application/json")⟩, false, none, false, none⟩ := by
  simp [controller.importRecordedData, h]

/-- Witness for C9 at the concrete Content-Type text/plain with an otherwise
fully valid request. -/
theorem C9_import_wrong_content_type_rejected_first_witness :
    controller.importRecordedData "text/plain" "" "" true true
        (.ok ⟨[⟨"dev1"⟩], [⟨"prof1"⟩], [⟨"dev1"⟩]⟩) (fun _ _ => .ok ()) =
      ⟨⟨400, [], .text ("Invalid content type 'text/plain'. Must be application/json")⟩,
        false, none, false, none⟩ :=
  C9_import_wrong_content_type_rejected_first "text/plain" "" "" true true
    (.ok ⟨[⟨"dev1"⟩], [⟨"prof1"⟩], [⟨"dev1"⟩]⟩) (fun _ _ => .ok ()) (by decide)

/-- C3: on export, the compression query token must be exactly the empty
string, ZLIB or GZIP: the empty token answers the plain JSON with
Content-Type application/json; ZLIB and GZIP set Content-Encoding to ZLIB
resp. GZIP and Content-Type application/json and write the zlib- resp.
gzip-compressed JSON of the stored RecordedData; any other token yields
status 500, and a data-manager error (no data available) yields status 500
for every token. -/
theorem C3_export_compression_contract (d : RecordedData) (comp : String)
    (h0 : comp ≠ controller.noCompression)
    (h1 : comp ≠ controller.zlibCompression)
    (h2 : comp ≠ controller.gzipCompression) :
    controller.exportRecordedData (.ok d) controller.noCompression =
      ⟨200, [("Content-Type", "application/json")], .plainJson d⟩ ∧
    controller.exportRecordedData (.ok d) controller.zlibCompression =
      ⟨200, [("Content-Encoding", "ZLIB"), ("Content-Type", "application/json")],
        .zlibJson d⟩ ∧
    controller.exportRecordedData (.ok d) controller.gzipCompression =
      ⟨200, [("Content-Encoding", "GZIP"), ("Content-Type", "application/json")],
        .gzipJson d⟩ ∧
    (controller.exportRecordedData (.ok d) comp).status = 500 ∧
    (∀ e c, (controller.exportRecordedData (.error e) c).status = 500) := by
  refine ⟨?_, ?_, ?_, ?_, ?_⟩
  · simp [controller.exportRecordedData, controller.noCompression,
      controller.contentTypeHeader, controller.contentTypeJSON]
  · simp [controller.exportRecordedData, controller.noCompression,
      controller.zlibCompression, controller.contentTypeHeader,
      controller.contentTypeJSON]
  · simp [controller.exportRecordedData, controller.noCompression,
      controller.zlibCompression, controller.gzipCompression,
      controller.contentTypeHeader, controller.contentTypeJSON]
  · simp [controller.exportRecordedData, h0, h1, h2]
  · intro e c
    simp [controller.exportRecordedData]

/-- Witness for C3 at the concrete unknown token BROTLI. -/
theorem C3_export_compression_contract_witness :
    (controller.exportRecordedData
        (.ok ⟨[⟨"dev1"⟩], [⟨"prof1"⟩], [⟨"dev1"⟩]⟩) "BROTLI").status = 500 :=
  (C3_export_compression_contract ⟨[⟨"dev1"⟩], [⟨"prof1"⟩], [⟨"dev1"⟩]⟩ "BROTLI"
      (by decide) (by decide) (by decide)).2.2.2.1

/-- C5: the record handler enforces, before invoking `StartRecording`, that
at least one of duration and eventLimit is non-zero and that neither is
negative: if both are zero, or either is negative, it responds 400 without
calling `StartRecording`; otherwise it calls `StartRecording` with the
decoded request and responds 202 when it succeeds and 500 when it returns an
error. -/
theorem C5_record_validation_before_start (req : RecordRequest)
    (mgr : RecordRequest → Except String Unit) :
    (((req.duration = 0 ∧ req.eventLimit = 0) ∨
        req.duration < 0 ∨ req.eventLimit < 0) →
      (controller.startRecording (.ok req) mgr).1.status = 400 ∧
      (controller.startRecording (.ok req) mgr).2 = none) ∧
    (¬(req.duration = 0 ∧ req.eventLimit = 0) → 0 ≤ req.duration →
        0 ≤ req.eventLimit →
      (controller.startRecording (.ok req) mgr).2 = some req ∧
      (mgr req = .ok () → (controller.startRecording (.ok req) mgr).1.status = 202) ∧
      (∀ e, mgr req = .error e →
        (controller.startRecording (.ok req) mgr).1.status = 500)) := by
  constructor
  · rintro (⟨h1, h2⟩ | h | h)
    · simp [controller.startRecording, h1, h2]
    · have hne : ¬(req.duration = 0 ∧ req.eventLimit = 0) := by omega
      simp [controller.startRecording, hne, h]
    · have hne : ¬(req.duration = 0 ∧ req.eventLimit = 0) := by omega
      by_cases hd : req.duration < 0 <;>
        simp [controller.startRecording, hne, hd, h]
  · intro hne hd hl
    have hd' : ¬req.duration < 0 := by omega
    have hl' : ¬req.eventLimit < 0 := by omega
    rcases hm : mgr req with e | u <;>
      simp [controller.startRecording, hne, hd', hl', hm]

/-- Witness for C5: both-zero is rejected with 400 and never forwarded; a
valid request is forwarded and accepted with 202. -/
theorem C5_record_validation_before_start_witness :
    ((controller.startRecording (.ok ⟨0, 0⟩) (fun _ => .ok ())).1.status = 400 ∧
      (controller.startRecording (.ok ⟨0, 0⟩) (fun _ => .ok ())).2 = none) ∧
    (controller.startRecording (.ok ⟨5, 0⟩) (fun _ => .ok ())).2 = some ⟨5, 0⟩ ∧
    (controller.startRecording (.ok ⟨5, 0⟩) (fun _ => .ok ())).1.status = 202 :=
  ⟨(C5_record_validation_before_start ⟨0, 0⟩ (fun _ => .ok ())).1
      (Or.inl ⟨rfl, rfl⟩),
   ((C5_record_validation_before_start ⟨5, 0⟩ (fun _ => .ok ())).2
      (by decide) (by decide) (by decide)).1,
   ((C5_record_validation_before_start ⟨5, 0⟩ (fun _ => .ok ())).2
      (by decide) (by decide) (by decide)).2.1 rfl⟩

/-- C6: the replay handler responds 400 without invoking `StartReplay`
whenever replayRate ≤ 0 or repeatCount < 0; when replayRate > 0 and
repeatCount ≥ 0 it invokes `StartReplay` with the decoded request and
responds 202 on success and 500 on a returned error. -/
theorem C6_replay_validation_before_start (req : ReplayRequest)
    (mgr : ReplayRequest → Except String Unit) :
    ((req.replayRate ≤ 0 ∨ req.repeatCount < 0) →
      (controller.startReplay (.ok req) mgr).1.status = 400 ∧
      (controller.startReplay (.ok req) mgr).2 = none) ∧
    (0 < req.replayRate → 0 ≤ req.repeatCount →
      (controller.startReplay (.ok req) mgr).2 = some req ∧
      (mgr req = .ok () → (controller.startReplay (.ok req) mgr).1.status = 202) ∧
      (∀ e, mgr req = .error e →
        (controller.startReplay (.ok req) mgr).1.status = 500)) := by
  constructor
  · rintro (h | h)
    · simp [controller.startReplay, h]
    · by_cases hr : req.replayRate ≤ 0 <;>
        simp [controller.startReplay, hr, h]
  · intro hr hc
    have hr' : ¬req.replayRate ≤ 0 := not_le.mpr hr
    have hc' : ¬req.repeatCount < 0 := not_lt.mpr hc
    rcases hm : mgr req with e | u <;>
      simp [controller.startReplay, hr', hc', hm]

/-- Witness for C6: a zero rate is rejected with 400 and never forwarded; a
valid request is forwarded and accepted with 202. -/
theorem C6_replay_validation_before_start_witness :
    ((controller.startReplay (.ok ⟨0, 0⟩) (fun _ => .ok ())).1.status = 400 ∧
      (controller.startReplay (.ok ⟨0, 0⟩) (fun _ => .ok ())).2 = none) ∧
    (controller.startReplay (.ok ⟨1, 2⟩) (fun _ => .ok ())).2 = some ⟨1, 2⟩ ∧
    (controller.startReplay (.ok ⟨1, 2⟩) (fun _ => .ok ())).1.status = 202 :=
  ⟨(C6_replay_validation_before_start ⟨0, 0⟩ (fun _ => .ok ())).1
      (Or.inl (by norm_num)),
   ((C6_replay_validation_before_start ⟨1, 2⟩ (fun _ => .ok ())).2
      (by norm_num) (by decide)).1,
   ((C6_replay_validation_before_start ⟨1, 2⟩ (fun _ => .ok ())).2
      (by norm_num) (by decide)).2.1 rfl⟩

/-- Helper: whatever the body decodes to and whatever the data manager
returns, the tail of the import handler reports the algorithm it was entered
with. -/
theorem importAfterReader_algorithm (alg : controller.Alg) (w : Bool)
    (dec : Except String RecordedData)
    (mgr : RecordedData → Bool → Except String Unit) :
    (controller.importAfterReader alg w dec mgr).algorithm = some alg := by
  rcases dec with e | d
  · rfl
  · by_cases h1 : d.recordedEvents.length < 1
    · simp [controller.importAfterReader, h1]
    · by_cases h2 : d.devices.length < 1
      · simp [controller.importAfterReader, h1, h2]
      · by_cases h3 : d.profiles.length < 1
        · simp [controller.importAfterReader, h1, h2, h3]
        · rcases hm : mgr d w with e | u <;>
            simp [controller.importAfterReader, h1, h2, h3, hm]

/-- Helper: when the tail of the import handler reaches the data manager,
the overwrite flag it passes is the one it was entered with. -/
theorem importAfterReader_managerArgs (alg : controller.Alg) (w : Bool)
    (dec : Except String RecordedData)
    (mgr : RecordedData → Bool → Except String Unit)
    (d : RecordedData) (b : Bool)
    (h : (controller.importAfterReader alg w dec mgr).managerArgs = some (d, b)) :
    b = w := by
  rcases dec with e | d'
  · simp [controller.importAfterReader] at h
  · by_cases h1 : d'.recordedEvents.length < 1
    · simp [controller.importAfterReader, h1] at h
    · by_cases h2 : d'.devices.length < 1
      · simp [controller.importAfterReader, h1, h2] at h
      · by_cases h3 : d'.profiles.length < 1
        · simp [controller.importAfterReader, h1, h2, h3] at h
        · rcases hm : mgr d' w with e | u <;>
            simp [controller.importAfterReader, h1, h2, h3, hm] at h <;>
            exact h.2.symm

/-- C4: the import handler selects the decompression algorithm solely from
the Content-Encoding request header, mapping the empty string to no
decompression, gzip to gzip and deflate to zlib — tokens deliberately
different from export's ZLIB/GZIP query values, which the import selector
does not accept — and never sniffs the body: for every valid request, the
selected algorithm equals `selectDecompression` of the header alone,
independent of the body, the reader outcomes and the data manager. -/
theorem C4_import_decompression_selected_by_header_only (ce op : String)
    (w g z : Bool) (dec : Except String RecordedData)
    (mgr : RecordedData → Bool → Except String Unit)
    (how : controller.getOverwrite op = .ok w) :
    controller.selectDecompression controller.noCompression = some .plain ∧
    controller.selectDecompression controller.contenEncodingGzip = some .gzip ∧
    controller.selectDecompression controller.contentEncodingZlib = some .zlib ∧
    controller.contenEncodingGzip = "gzip" ∧
    controller.contentEncodingZlib = "deflate" ∧
    controller.selectDecompression controller.zlibCompression = none ∧
    controller.selectDecompression controller.gzipCompression = none ∧
    (controller.importRecordedData controller.contentTypeJSON op ce g z
        dec mgr).algorithm = controller.selectDecompression ce := by
  refine ⟨rfl, rfl, rfl, rfl, rfl, rfl, rfl, ?_⟩
  by_cases h0 : ce = controller.noCompression
  · simp [controller.importRecordedData, controller.selectDecompression, how, h0,
      importAfterReader_algorithm]
  · by_cases h1 : ce = controller.contenEncodingGzip
    · cases g <;>
        simp [controller.importRecordedData, controller.selectDecompression, how,
          h0, h1, controller.noCompression, controller.contenEncodingGzip,
          importAfterReader_algorithm]
    · by_cases h2 : ce = controller.contentEncodingZlib
      · cases z <;>
          simp [controller.importRecordedData, controller.selectDecompression, how,
            h0, h1, h2, controller.noCompression, controller.contenEncodingGzip,
            controller.contentEncodingZlib, importAfterReader_algorithm]
      · simp [controller.importRecordedData, controller.selectDecompression, how,
          h0, h1, h2]

/-- Witness for C4 at the concrete header gzip with an absent overwrite
parameter and a failing gzip reader. -/
theorem C4_import_decompression_selected_by_header_only_witness :
    controller.getOverwrite "" = .ok true ∧
    (controller.importRecordedData controller.contentTypeJSON "" "gzip" false true
        (.error "EOF") (fun _ _ => .ok ())).algorithm =
      controller.selectDecompression "gzip" :=
  ⟨rfl, (C4_import_decompression_selected_by_header_only "gzip" "" true false true
      (.error "EOF") (fun _ _ => .ok ()) rfl).2.2.2.2.2.2.2⟩

/-- C10: an import request whose Content-Encoding is none of the empty
string, gzip or deflate is answered 400 ("compression format ... not
supported") without decoding the body and without invoking the data manager
— in contrast to export, where a token that is neither empty nor ZLIB nor
GZIP yields 500. -/
theorem C10_unknown_import_encoding_400_export_500 (op ce : String)
    (w g z : Bool) (dec : Except String RecordedData)
    (mgr : RecordedData → Bool → Except String Unit) (d : RecordedData)
    (how : controller.getOverwrite op = .ok w)
    (h0 : ce ≠ controller.noCompression)
    (h1 : ce ≠ controller.contenEncodingGzip)
    (h2 : ce ≠ controller.contentEncodingZlib) :
    controller.importRecordedData controller.contentTypeJSON op ce g z dec mgr =
      ⟨⟨400, [], .text ("compression format " ++ ce ++ " not supported")⟩,
        true, none, false, none⟩ ∧
    (ce ≠ controller.zlibCompression → ce ≠ controller.gzipCompression →
      (controller.exportRecordedData (.ok d) ce).status = 500) := by
  constructor
  · simp [controller.importRecordedData, how, h0, h1, h2]
  · intro h3 h4
    simp [controller.exportRecordedData, h0, h3, h4]

/-- Witness for C10 at the concrete token br: import answers 400, export
answers 500. -/
theorem C10_unknown_import_encoding_400_export_500_witness :
    controller.getOverwrite "" = .ok true ∧
    (controller.importRecordedData controller.contentTypeJSON "" "br" true true
        (.ok ⟨[⟨"dev1"⟩], [⟨"prof1"⟩], [⟨"dev1"⟩]⟩) (fun _ _ => .ok ()) =
      ⟨⟨400, [], .text "compression format br not supported"⟩,
        true, none, false, none⟩) ∧
    (controller.exportRecordedData
        (.ok ⟨[⟨"dev1"⟩], [⟨"prof1"⟩], [⟨"dev1"⟩]⟩) "br").status = 500 :=
  ⟨rfl,
   (C10_unknown_import_encoding_400_export_500 "" "br" true true true
      (.ok ⟨[⟨"dev1"⟩], [⟨"prof1"⟩], [⟨"dev1"⟩]⟩) (fun _ _ => .ok ())
      ⟨[⟨"dev1"⟩], [⟨"prof1"⟩], [⟨"dev1"⟩]⟩ rfl (by decide) (by decide) (by decide)).1,
   (C10_unknown_import_encoding_400_export_500 "" "br" true true true
      (.ok ⟨[⟨"dev1"⟩], [⟨"prof1"⟩], [⟨"dev1"⟩]⟩) (fun _ _ => .ok ())
      ⟨[⟨"dev1"⟩], [⟨"prof1"⟩], [⟨"dev1"⟩]⟩ rfl (by decide) (by decide) (by decide)).2
      (by decide) (by decide)⟩

/-- C2: an import request that reaches the payload checks with zero recorded
events, or zero devices, or zero profiles is answered 400 with the
corresponding validation message and the data manager's
`ImportRecordedData` is never invoked (so the Recorded Data Store is left
unchanged); the checks apply in the order events, then devices, then
profiles. -/
theorem C2_import_empty_payload_rejected (op ce : String) (g z w : Bool)
    (d : RecordedData) (mgr : RecordedData → Bool → Except String Unit)
    (how : controller.getOverwrite op = .ok w)
    (hreach : ce = controller.noCompression ∨
      (ce = controller.contenEncodingGzip ∧ g = true) ∨
      (ce = controller.contentEncodingZlib ∧ z = true)) :
    (d.recordedEvents = [] →
      (controller.importRecordedData controller.contentTypeJSON op ce g z
          (.ok d) mgr).response =
        ⟨400, [], .text (controller.noDataFound ++ ": no recorded events")⟩ ∧
      (controller.importRecordedData controller.contentTypeJSON op ce g z
          (.ok d) mgr).managerArgs = none) ∧
    (d.recordedEvents ≠ [] → d.devices = [] →
      (controller.importRecordedData controller.contentTypeJSON op ce g z
          (.ok d) mgr).response =
        ⟨400, [], .text (controller.noDataFound ++ ": no devices")⟩ ∧
      (controller.importRecordedData controller.contentTypeJSON op ce g z
          (.ok d) mgr).managerArgs = none) ∧
    (d.recordedEvents ≠ [] → d.devices ≠ [] → d.profiles = [] →
      (controller.importRecordedData controller.contentTypeJSON op ce g z
          (.ok d) mgr).response =
        ⟨400, [], .text (controller.noDataFound ++ ": no profiles")⟩ ∧
      (controller.importRecordedData controller.contentTypeJSON op ce g z
          (.ok d) mgr).managerArgs = none) := by
  obtain ⟨alg, hred⟩ : ∃ alg,
      controller.importRecordedData controller.contentTypeJSON op ce g z
        (.ok d) mgr = controller.importAfterReader alg w (.ok d) mgr := by
    rcases hreach with h | ⟨h, hg⟩ | ⟨h, hz⟩
    · exact ⟨.plain, by simp [controller.importRecordedData, how, h]⟩
    · exact ⟨.gzip, by
        simp [controller.importRecordedData, how, h, hg,
          controller.noCompression, controller.contenEncodingGzip]⟩
    · exact ⟨.zlib, by
        simp [controller.importRecordedData, how, h, hz,
          controller.noCompression, controller.contenEncodingGzip,
          controller.contentEncodingZlib]⟩
  rw [hred]
  refine ⟨?_, ?_, ?_⟩
  · intro he
    simp [controller.importAfterReader, he]
  · intro he hd
    have h1 : ¬(d.recordedEvents.length < 1) := by
      simpa [Nat.lt_one_iff, List.length_eq_zero] using he
    simp [controller.importAfterReader, h1, hd]
  · intro he hd hp
    have h1 : ¬(d.recordedEvents.length < 1) := by
      simpa [Nat.lt_one_iff, List.length_eq_zero] using he
    have h2 : ¬(d.devices.length < 1) := by
      simpa [Nat.lt_one_iff, List.length_eq_zero] using hd
    simp [controller.importAfterReader, h1, h2, hp]

/-- Witness for C2: a payload with one event, one profile and no devices is
answered 400 with the no-devices message and the data manager is not
invoked. -/
theorem C2_import_empty_payload_rejected_witness :
    controller.getOverwrite "" = .ok true ∧
    (controller.importRecordedData controller.contentTypeJSON "" "" true true
        (.ok ⟨[⟨"dev1"⟩], [⟨"prof1"⟩], []⟩) (fun _ _ => .ok ())).response =
      ⟨400, [], .text (controller.noDataFound ++ ": no devices")⟩ ∧
    (controller.importRecordedData controller.contentTypeJSON "" "" true true
        (.ok ⟨[⟨"dev1"⟩], [⟨"prof1"⟩], []⟩) (fun _ _ => .ok ())).managerArgs =
      none :=
  ⟨rfl,
   (C2_import_empty_payload_rejected "" "" true true true
      ⟨[⟨"dev1"⟩], [⟨"prof1"⟩], []⟩ (fun _ _ => .ok ()) rfl (Or.inl rfl)).2.1
      (by decide) rfl⟩

/-- C8: when an import request reaches the data manager, the overwrite flag
passed to `ImportRecordedData` is `true` when the overwrite query parameter
is absent (the query getter yields the empty string) and otherwise is the
value `strconv.ParseBool` yields for the parameter. -/
theorem C8_import_overwrite_flag (ct op ce : String) (g z : Bool)
    (dec : Except String RecordedData)
    (mgr : RecordedData → Bool → Except String Unit)
    (d : RecordedData) (w : Bool)
    (h : (controller.importRecordedData ct op ce g z dec mgr).managerArgs =
      some (d, w)) :
    (op.length = 0 → w = true) ∧
    (op.length ≠ 0 → controller.parseBool op = .ok w) := by
  by_cases hct : ct = controller.contentTypeJSON
  case neg => simp [controller.importRecordedData, hct] at h
  subst hct
  rcases hgo : controller.getOverwrite op with e | b
  · simp [controller.importRecordedData, hgo] at h
  have key : ∀ alg : controller.Alg,
      controller.importRecordedData controller.contentTypeJSON op ce g z dec mgr =
        controller.importAfterReader alg b dec mgr → w = b := by
    intro alg heq
    exact importAfterReader_managerArgs alg b dec mgr d w (heq ▸ h)
  have hb : w = b := by
    by_cases h0 : ce = controller.noCompression
    · exact key .plain (by simp [controller.importRecordedData, hgo, h0])
    · by_cases h1 : ce = controller.contenEncodingGzip
      · cases g
        · simp [controller.importRecordedData, hgo, h0, h1,
            controller.noCompression, controller.contenEncodingGzip] at h
        · exact key .gzip (by
            simp [controller.importRecordedData, hgo, h0, h1,
              controller.noCompression, controller.contenEncodingGzip])
      · by_cases h2 : ce = controller.contentEncodingZlib
        · cases z
          · simp [controller.importRecordedData, hgo, h0, h1, h2,
              controller.noCompression, controller.contenEncodingGzip,
              controller.contentEncodingZlib] at h
          · exact key .zlib (by
              simp [controller.importRecordedData, hgo, h0, h1, h2,
                controller.noCompression, controller.contenEncodingGzip,
                controller.contentEncodingZlib])
        · simp [controller.importRecordedData, hgo, h0, h1, h2] at h
  subst hb
  constructor
  · intro hlen
    have ht : controller.getOverwrite op = .ok true := by
      simp [controller.getOverwrite, hlen]
    have := ht.symm.trans hgo
    exact (Except.ok.inj this).symm
  · intro hlen
    simpa [controller.getOverwrite, hlen] using hgo

/-- Witness for C8: an import with overwrite=false reaching the data manager
passes the flag false, matching ParseBool. -/
theorem C8_import_overwrite_flag_witness :
    (controller.importRecordedData controller.contentTypeJSON "false" "" true true
        (.ok ⟨[⟨"dev1"⟩], [⟨"prof1"⟩], [⟨"dev1"⟩]⟩) (fun _ _ => .ok ())).managerArgs =
      some (⟨[⟨"dev1"⟩], [⟨"prof1"⟩], [⟨"dev1"⟩]⟩, false) ∧
    ("false".length ≠ 0 → controller.parseBool "false" = .ok false) :=
  ⟨rfl,
   (C8_import_overwrite_flag controller.contentTypeJSON "false" "" true true
      (.ok ⟨[⟨"dev1"⟩], [⟨"prof1"⟩], [⟨"dev1"⟩]⟩) (fun _ _ => .ok ())
      ⟨[⟨"dev1"⟩], [⟨"prof1"⟩], [⟨"dev1"⟩]⟩ false rfl).2⟩

end ARR
